import Mathlib

/-!
Verification of the orchestration core of the OpenPeerPower supervisor:
the watchdog probes (supervisor/misc/tasks.py), the snapshot/restore
engine (supervisor/snapshots/__init__.py) and the primary-application
control object (supervisor/openpeerpower/core.py), shallowly embedded as
pure Lean functions.  Calls into managed-component control objects
(Docker start/stop/restore steps) are modelled as named abstract steps whose
success or failure is supplied by an environment record, exactly following
the control flow of the Python source.
-/

namespace Supervisor

/-- Association-list lookup keyed by strings (models a Python dict). -/
def alistFind {β : Type} : List (String × β) → String → Option β
  | [], _ => none
  | p :: rest, s => if p.fst = s then some p.snd else alistFind rest s

/-- Association-list update keyed by strings (models Python dict assignment:
the key is bound to the new value, any previous binding is shadowed away). -/
def alistSet {β : Type} (c : List (String × β)) (k : String) (v : β) :
    List (String × β) :=
  (k, v) :: c.filter (fun p => decide (p.fst ≠ k))

theorem alistFind_set_self {β : Type} (c : List (String × β)) (k : String) (v : β) :
    alistFind (alistSet c k v) k = some v := by
  simp [alistFind, alistSet]

theorem alistFind_filter_ne {β : Type} (c : List (String × β)) (k s : String)
    (h : k ≠ s) :
    alistFind (c.filter (fun p => decide (p.fst ≠ k))) s = alistFind c s := by
  induction c with
  | nil => rfl
  | cons p rest ih =>
    rw [List.filter_cons]
    by_cases hp : p.fst = k
    · rw [if_neg (by simp [hp]), ih]
      have hps : ¬p.fst = s := by
        rw [hp]; exact h
      conv_rhs => rw [alistFind, if_neg hps]
    · rw [if_pos (by simp [hp])]
      by_cases hs : p.fst = s
      · rw [alistFind, if_pos hs, alistFind, if_pos hs]
      · rw [alistFind, if_neg hs, alistFind, if_neg hs, ih]

theorem alistFind_set_other {β : Type} (c : List (String × β)) (k s : String)
    (v : β) (h : k ≠ s) :
    alistFind (alistSet c k v) s = alistFind c s := by
  unfold alistSet
  rw [alistFind, if_neg h]
  exact alistFind_filter_ne c k s h

theorem alistFind_none_forall {β : Type} (c : List (String × β)) (k : String)
    (h : alistFind c k = none) : ∀ p ∈ c, p.fst ≠ k := by
  induction c with
  | nil => intro p hp; cases hp
  | cons q rest ih =>
    intro p hp
    rw [alistFind] at h
    by_cases hq : q.fst = k
    · rw [if_pos hq] at h; cases h
    · rw [if_neg hq] at h
      rcases List.mem_cons.mp hp with rfl | hmem
      · exact hq
      · exact ih h p hmem

theorem alistSet_length_fresh {β : Type} (c : List (String × β)) (k : String)
    (v : β) (h : alistFind c k = none) :
    (alistSet c k v).length = c.length + 1 := by
  have hf : c.filter (fun p => decide (p.fst ≠ k)) = c := by
    rw [List.filter_eq_self]
    intro p hp
    simp only [decide_eq_true_eq]
    exact alistFind_none_forall c k h p hp
  unfold alistSet
  rw [hf, List.length_cons]

/-! ## Watchdog retry-scan counters (supervisor/misc/tasks.py)

The watchdog cache `Tasks._cache` maps a component key to its retry-scan
counter; `cache.get(key, 0)` defaults to zero.  -/

/-- Counter read: `self._cache.get(key, 0)`. -/
def cacheGet (c : List (String × Nat)) (k : String) : Nat :=
  (alistFind c k).getD 0

/-- Counter write: `self._cache[key] = v`. -/
def cacheSet (c : List (String × Nat)) (k : String) (v : Nat) :
    List (String × Nat) :=
  alistSet c k v

theorem cacheGet_set_self (c : List (String × Nat)) (k : String) (v : Nat) :
    cacheGet (cacheSet c k v) k = v := by
  simp [cacheGet, cacheSet, alistFind_set_self]

theorem cacheGet_set_other (c : List (String × Nat)) (k s : String) (v : Nat)
    (h : k ≠ s) :
    cacheGet (cacheSet c k v) s = cacheGet c s := by
  simp [cacheGet, cacheSet, alistFind_set_other c k s v h]

/-- One tick of `Tasks._watchdog_openpeerpower_api`, the primary-application
API probe.  Inputs are the live observations the tick makes (in the order the
source reads them) plus the current retry-scan counter; the result is the new
counter together with whether a restart escalation was issued.  The gating
reads are `core.is_failed()`, the `watchdog` flag and `error_state`; then the
counter is read from the cache; then `core.in_progress` and
`api.check_api_state()` decide whether the probe passed.  A restart that
raises is caught and only logged, so escalation outcome does not change the
control flow; the `finally` block resets the counter to zero after any
escalation. -/
def watchdogOppApi (isFailed wd errorState inProgress apiUp : Bool)
    (cache : Nat) : Nat × Bool :=
  if isFailed = false ∨ wd = false ∨ errorState then (cache, false)
  else if inProgress ∨ apiUp then (cache, false)
  else if cache + 1 = 1 then (1, false)
  else (0, true)

/-- One managed add-on as seen by `Tasks._watchdog_addon_application`:
its slug, the `watchdog` opt-in flag, whether its recorded state is
`AddonState.STARTED`, whether it is mid-operation, and the result of its
`watchdog_application()` probe. -/
structure AddonW where
  slug : String
  watchdog : Bool
  started : Bool
  inProgress : Bool
  appOk : Bool
deriving DecidableEq

/-- One tick of `Tasks._watchdog_addon_application` over the installed
add-on list (iteration order preserved).  Returns the final cache plus the
slugs of the add-ons that were escalated (restarted), in order.  A first
consecutive failure (counter `0 → 1`) stores the counter and returns from
the whole tick (`return`, not `continue`); an escalation resets the counter
to zero in a `finally` block (restart exceptions are caught and logged) and
iteration continues. -/
def watchdogAddonApp : List AddonW → List (String × Nat) →
    List (String × Nat) × List String
  | [], c => (c, [])
  | a :: rest, c =>
    if a.watchdog = false ∨ a.started = false then watchdogAddonApp rest c
    else if a.inProgress ∨ a.appOk then watchdogAddonApp rest c
    else if cacheGet c a.slug + 1 = 1 then (cacheSet c a.slug 1, [])
    else
      ((watchdogAddonApp rest (cacheSet c a.slug 0)).fst,
        a.slug :: (watchdogAddonApp rest (cacheSet c a.slug 0)).snd)

/-! ## Snapshot manager (supervisor/snapshots/__init__.py)

`SnapshotManager` holds the in-memory catalog `snapshots_obj` (a dict keyed
by slug), a single global `asyncio.Lock`, and reads/writes the global
`CoreState` through `sys_core.state`.  The four workflows are embedded as
pure functions over a system state; the component capture/restore calls are
abstract named steps whose failure behaviour is supplied by the caller, and
every executed step is recorded as an event carrying the `CoreState` and
lock value in force when it ran. -/

/-- The global lifecycle enum `CoreState` (supervisor/const.py is not in
scope; the members are those the spec lists and the snapshot code uses). -/
inductive CoreState where
  | initial
  | setup
  | running
  | freeze
  | stopping
  | close
  | shutdown
deriving DecidableEq

/-- `SNAPSHOT_FULL` / `SNAPSHOT_PARTIAL`. -/
inductive SnapType where
  | full
  | part
deriving DecidableEq

/-- The state the snapshot workflows read and mutate: the global
`CoreState`, whether the global lock of the manager is held, and the catalog
`snapshots_obj` (slug-keyed). -/
structure SysState where
  core : CoreState
  lockHeld : Bool
  catalog : List (String × SnapType)
deriving DecidableEq

/-- Observable events of a snapshot/restore workflow run: `CoreState`
assignments, lock acquire/release, and each component capture/restore step
annotated with the `CoreState` and lock value in force when it ran. -/
inductive Ev where
  | setState (s : CoreState)
  | acquire
  | release
  | step (name : String) (core : CoreState) (lockHeld : Bool)
deriving DecidableEq

/-- Run a sequence of component steps `(name, raises)` under fixed
`CoreState` `c` and lock value `l`: each executed step is recorded; the
first step that raises aborts the sequence (the exception is caught by the
`except` clause of the workflow).  Returns the events and whether the whole body
completed without an exception. -/
def runSteps (c : CoreState) (l : Bool) : List (String × Bool) → List Ev × Bool
  | [] => ([], true)
  | s :: rest =>
    if s.snd then ([Ev.step s.fst c l], false)
    else (Ev.step s.fst c l :: (runSteps c l rest).fst, (runSteps c l rest).snd)

/-- Result of `do_snapshot_full` / `do_snapshot_partial`: the final system
state, the returned value (`some slug` for the new snapshot object, `none`
on failure), and the event trace. -/
structure SnapCall where
  state : SysState
  result : Option String
  events : List Ev
deriving DecidableEq

/-- The common `try/except/else/finally` bracket of both snapshot-creation
workflows: set `CoreState.FREEZE`, acquire the lock, run the capture steps,
register the snapshot in the catalog only when no step raised, and in the
`finally` clause restore `CoreState.RUNNING` and release the lock. -/
def snapBody (st : SysState) (slug : String) (ty : SnapType)
    (L : List (String × Bool)) : SnapCall :=
  ⟨⟨CoreState.running, false,
    if (runSteps CoreState.freeze true L).snd then alistSet st.catalog slug ty
    else st.catalog⟩,
   if (runSteps CoreState.freeze true L).snd then some slug else none,
   [Ev.setState CoreState.freeze, Ev.acquire] ++
     (runSteps CoreState.freeze true L).fst ++
     [Ev.setState CoreState.running, Ev.release]⟩

/-- `SnapshotManager.do_snapshot_full(name, password)`.  The `Job`
decorator conditions `FREE_SPACE`/`RUNNING` (jobs framework, outside this
module) are assumed to have passed.  The body: reject if the lock is held
(return `None`); build the snapshot object (slug derived from name and
timestamp — passed in here); set `CoreState.FREEZE`; acquire the lock; store
add-ons then folders (either may raise, `failAddons`/`failFolders`); on
exception return `None`, otherwise register the snapshot in the catalog and
return it; in all cases the `finally` clause restores `CoreState.RUNNING`
and releases the lock. -/
def doSnapshotFull (st : SysState) (slug : String)
    (failAddons failFolders : Bool) : SnapCall :=
  if st.lockHeld then ⟨st, none, []⟩
  else snapBody st slug SnapType.full
    [("store_addons", failAddons), ("store_folders", failFolders)]

/-- `SnapshotManager.do_snapshot_partial(name, addons, folders, password)`.
Requested add-on slugs not found installed are skipped with a warning
(`sys_addons.get` + `is_installed`, modelled by membership in `installed`);
`store_addons` runs only when the filtered list is non-empty, and
`store_folders` only when `folders` is non-empty.  Everything else is as in
`doSnapshotFull`. -/
def doSnapshotPartial (st : SysState) (slug : String)
    (addons installed folders : List String)
    (failAddons failFolders : Bool) : SnapCall :=
  if st.lockHeld then ⟨st, none, []⟩
  else snapBody st slug SnapType.part
    ((if (addons.filter (fun a => installed.contains a)).isEmpty then []
      else [("store_addons", failAddons)]) ++
     (if folders.isEmpty then [] else [("store_folders", failFolders)]))

/-- A snapshot object as the restore workflows consult it: slug, type
(`sys_type`), protection flag, and the add-on slugs in its manifest
(`addon_list`). -/
structure Snap where
  slug : String
  sysType : SnapType
  protectedFlag : Bool
  addonList : List String
deriving DecidableEq

/-- Environment of a restore run: which component calls raise, the add-ons
currently installed, and the observations `core.is_running()` and
`api.check_api_state()` return.  `Addon.uninstall` raising `AddonsError` is
caught per add-on (warning only), so uninstall steps never abort the
workflow. -/
structure RestoreEnv where
  failShutdown : Bool
  failRestoreFolders : Bool
  failRestoreDocker : Bool
  failRestoreOpp : Bool
  failRestoreRepos : Bool
  failRestoreAddons : Bool
  failOppUpdate : Bool
  failOppStart : Bool
  failStop : Bool
  failRestart : Bool
  installed : List String
  isRunning : Bool
  apiUp : Bool
deriving DecidableEq

/-- Result of `do_restore_full` / `do_restore_partial`: final state, the
returned boolean, and the event trace. -/
structure RestoreCall where
  state : SysState
  ok : Bool
  events : List Ev
deriving DecidableEq

/-- The common `try/except/else/finally` bracket of both restore workflows:
set `CoreState.FREEZE`, acquire the lock, run the restore steps, return
`True` iff none raised, and in the `finally` clause restore
`CoreState.RUNNING` and release the lock.  The catalog is not touched. -/
def restoreBody (st : SysState) (L : List (String × Bool)) : RestoreCall :=
  ⟨⟨CoreState.running, false, st.catalog⟩,
   (runSteps CoreState.freeze true L).snd,
   [Ev.setState CoreState.freeze, Ev.acquire] ++
     (runSteps CoreState.freeze true L).fst ++
     [Ev.setState CoreState.running, Ev.release]⟩

/-- The step sequence of the `do_restore_full` body, in source order:
coordinated shutdown; restore folders; restore docker config; restore the
primary-application settings and create the asynchronous update task;
restore repositories; uninstall installed add-ons absent from the snapshot
manifest (failures caught per add-on); restore the add-ons of the snapshot;
await the update task; start the primary application.  There is no API
readiness check in this workflow. -/
def fullRestoreSteps (snap : Snap) (env : RestoreEnv) : List (String × Bool) :=
  [("shutdown", env.failShutdown),
   ("restore_folders", env.failRestoreFolders),
   ("restore_dockerconfig", env.failRestoreDocker),
   ("restore_openpeerpower", env.failRestoreOpp),
   ("create_task_opp_update", false),
   ("restore_repositories", env.failRestoreRepos)] ++
  ((env.installed.filter (fun a => !(snap.addonList.contains a))).map
    (fun a => ("uninstall " ++ a, false))) ++
  [("restore_addons", env.failRestoreAddons),
   ("await_opp_update", env.failOppUpdate),
   ("core_start", env.failOppStart)]

/-- `SnapshotManager.do_restore_full(snapshot, password)`.  `passwordOk` is
the result of `snapshot.set_password(password)` (snapshot internals live in
snapshots/snapshot.py, outside this module).  Checks in source order: lock
already held → `False`; `sys_type != SNAPSHOT_FULL` → `False`; protected
with wrong password → `False`; then `FREEZE`, acquire, run the body steps,
and a `finally` that restores `RUNNING` and releases the lock; the result is
`True` iff no body step raised. -/
def doRestoreFull (st : SysState) (snap : Snap) (passwordOk : Bool)
    (env : RestoreEnv) : RestoreCall :=
  if st.lockHeld then ⟨st, false, []⟩
  else if snap.sysType ≠ SnapType.full then ⟨st, false, []⟩
  else if snap.protectedFlag ∧ passwordOk = false then ⟨st, false, []⟩
  else restoreBody st (fullRestoreSteps snap env)

/-- The step sequence of the `do_restore_partial` body, in source order:
restore docker config always; if the primary-application folder is among
the requested folders, stop the application and restore its settings; if
any folders requested, restore them; if the application is requested,
create the asynchronous update task; if add-ons requested, restore
repositories then add-ons; await the update task if created; start the
application if it is observed not running; check API readiness and restart
once if unreachable. -/
def partRestoreSteps (folders addons : List String) (oppFlag : Bool)
    (env : RestoreEnv) : List (String × Bool) :=
  [("restore_dockerconfig", env.failRestoreDocker)] ++
  (if folders.contains "openpeerpower" then
    [("core_stop", env.failStop), ("restore_openpeerpower", env.failRestoreOpp)]
   else []) ++
  (if folders.isEmpty then [] else
    [("restore_folders", env.failRestoreFolders)]) ++
  (if oppFlag then [("create_task_opp_update", false)] else []) ++
  (if addons.isEmpty then [] else
    [("restore_repositories", env.failRestoreRepos),
     ("restore_addons", env.failRestoreAddons)]) ++
  (if oppFlag then [("await_opp_update", env.failOppUpdate)] else []) ++
  (if env.isRunning then [] else [("core_start", env.failOppStart)]) ++
  [("check_api", false)] ++
  (if env.apiUp then [] else [("core_restart", env.failRestart)])

/-- `SnapshotManager.do_restore_partial(snapshot, openpeerpower, addons,
folders, password)`.  Checks in source order: lock already held → `False`;
protected with wrong password → `False` (no type check here); then the same
`FREEZE`/lock bracket around the body steps as in `doRestoreFull`. -/
def doRestorePartial (st : SysState) (snap : Snap) (oppFlag : Bool)
    (addons folders : List String) (passwordOk : Bool)
    (env : RestoreEnv) : RestoreCall :=
  if st.lockHeld then ⟨st, false, []⟩
  else if snap.protectedFlag ∧ passwordOk = false then ⟨st, false, []⟩
  else restoreBody st (partRestoreSteps folders addons oppFlag env)

/-- Does an event witness a component step run outside the
`FREEZE`-with-lock bracket?  `stepsFrozen` is true when every recorded step
ran with `CoreState.FREEZE` set and the global lock held. -/
def evFrozen : Ev → Bool
  | Ev.step _ c l => decide (c = CoreState.freeze) && l
  | _ => true

/-- All component steps of a trace ran under `FREEZE` with the lock held. -/
def stepsFrozen (evs : List Ev) : Bool :=
  evs.all evFrozen

/-- Count of primary-application restart steps in a trace. -/
def restartCount (evs : List Ev) : Nat :=
  evs.countP (fun e =>
    match e with
    | Ev.step n _ _ => decide (n = "core_restart")
    | _ => false)

/-- Count of API readiness checks in a trace. -/
def checkApiCount (evs : List Ev) : Nat :=
  evs.countP (fun e =>
    match e with
    | Ev.step n _ _ => decide (n = "check_api")
    | _ => false)

theorem runSteps_all_frozen (L : List (String × Bool)) :
    ((runSteps CoreState.freeze true L).fst).all evFrozen = true := by
  induction L with
  | nil => rfl
  | cons s rest ih =>
    unfold runSteps
    cases hs : s.snd <;> simp [hs, evFrozen, ih]

theorem runSteps_nofail (c : CoreState) (l : Bool) (L : List (String × Bool))
    (h : ∀ s ∈ L, s.snd = false) :
    runSteps c l L = (L.map (fun s => Ev.step s.fst c l), true) := by
  induction L with
  | nil => rfl
  | cons s rest ih =>
    have hs := h s (List.mem_cons_self s rest)
    unfold runSteps
    rw [hs]
    simp [ih (fun t ht => h t (List.mem_cons_of_mem s ht))]

theorem countP_ite (p : String × Bool → Bool) (c : Prop) [Decidable c]
    (A B : List (String × Bool)) :
    List.countP p (if c then A else B) =
      if c then List.countP p A else List.countP p B := by
  split <;> rfl

theorem mem_ite_nil {α : Type} {s : α} {c : Prop} [Decidable c] {L : List α}
    (hs : s ∈ if c then L else []) : s ∈ L := by
  split at hs
  · exact hs
  · cases hs

theorem mem_ite_nil_left {α : Type} {s : α} {c : Prop} [Decidable c]
    {L : List α} (hs : s ∈ if c then [] else L) : s ∈ L := by
  split at hs
  · cases hs
  · exact hs

/-- The `FREEZE`/`RUNNING` bracket of a snapshot-creation body: the final
state is `RUNNING` with the lock free, and every capture step ran under
`FREEZE` with the lock held. -/
theorem snapBody_bracket (st : SysState) (slug : String) (ty : SnapType)
    (L : List (String × Bool)) :
    (snapBody st slug ty L).state.core = CoreState.running ∧
    (snapBody st slug ty L).state.lockHeld = false ∧
    stepsFrozen (snapBody st slug ty L).events = true := by
  refine ⟨rfl, rfl, ?_⟩
  simp [snapBody, stepsFrozen, List.all_append, evFrozen, runSteps_all_frozen]

/-- The `FREEZE`/`RUNNING` bracket of a restore body. -/
theorem restoreBody_bracket (st : SysState) (L : List (String × Bool)) :
    (restoreBody st L).state.core = CoreState.running ∧
    (restoreBody st L).state.lockHeld = false ∧
    stepsFrozen (restoreBody st L).events = true := by
  refine ⟨rfl, rfl, ?_⟩
  simp [restoreBody, stepsFrozen, List.all_append, evFrozen, runSteps_all_frozen]

/-- Catalog effect of a snapshot-creation body: unchanged on failure; on
success exactly the new slug is bound. -/
theorem snapBody_catalog (st : SysState) (slug : String) (ty : SnapType)
    (L : List (String × Bool)) :
    ((snapBody st slug ty L).result = none →
      (snapBody st slug ty L).state.catalog = st.catalog) ∧
    (∀ s, (snapBody st slug ty L).result = some s →
      s = slug ∧
      alistFind (snapBody st slug ty L).state.catalog slug = some ty ∧
      (∀ t, t ≠ slug →
        alistFind (snapBody st slug ty L).state.catalog t =
          alistFind st.catalog t) ∧
      (alistFind st.catalog slug = none →
        (snapBody st slug ty L).state.catalog.length = st.catalog.length + 1)) := by
  unfold snapBody
  cases hb : (runSteps CoreState.freeze true L).snd
  · simp
  · simp only [if_pos, Option.some.injEq]
    constructor
    · intro h
      cases h
    · intro s hsome
      refine ⟨hsome.symm, ?_, ?_, ?_⟩
      · exact alistFind_set_self st.catalog slug ty
      · intro t ht
        exact alistFind_set_other st.catalog slug t ty (fun he => ht he.symm)
      · intro hfresh
        exact alistSet_length_fresh st.catalog slug ty hfresh

/-! ## Primary-application update (supervisor/openpeerpower/core.py)

`OpenPeerPowerCore.update` resolves the target version, captures the
rollback version (`self.sys_openpeerpower.version` unless the system is
already in error state), short-circuits when the requested version is the
one the container instance already runs, and otherwise performs the update
through the inner `_update` coroutine; on a suppressed failure it rolls
back only when the failure left `error_state` set and a rollback version
was captured, otherwise it raises `OpenPeerPowerUpdateError`. -/

/-- Outcome of `_start` (container run + `_block_till_run`): the instance
came up and answered the API (`_error_state := False`); the Docker run call
failed (`OpenPeerPowerError`, error state untouched); or the instance
crashed / timed out in `_block_till_run` (`_error_state := True`,
`OpenPeerPowerCrashError`). -/
inductive StartOutcome where
  | ok
  | runFail
  | crash
deriving DecidableEq

/-- The error classes `update` can surface (all subclasses of
`OpenPeerPowerError`, hence all suppressed by the
`with suppress(OpenPeerPowerError)` around the first `_update`). -/
inductive UpdErr where
  | updateErr
  | oppErr
  | crashErr
deriving DecidableEq

/-- The persisted primary-application record plus the container instance
version and the `_error_state` flag of the core object. -/
structure OppSys where
  version : Option String
  image : Option String
  instVersion : Option String
  errorState : Bool
deriving DecidableEq

/-- External collaborators of `update`: the image name from the updater, the
observations `is_running()`/`exists()` made at entry, whether
`instance.update(to)` succeeds per target version, and the `_start` outcome
per started version. -/
structure UpdateEnv where
  updaterImage : String
  running : Bool
  imageExists : Bool
  dockerUpdateOk : String → Bool
  startOutcome : String → StartOutcome

/-- Result of an `update` call: final record state, the raised error if
any (`none` = returned normally), and the versions passed to
`instance.update`, in order. -/
structure UpdateCall where
  state : OppSys
  result : Option UpdErr
  attempts : List String
deriving DecidableEq

/-- The inner `_update(to_version)` coroutine: `instance.update` failure
raises `OpenPeerPowerUpdateError`; on success the recorded version/image
are set from the instance and the updater; if the application was running
at entry, `_start` runs and its outcome determines `_error_state` and the
raised error.  (`save_data` and `cleanup` have no bearing on this state.) -/
def updInner (s : OppSys) (env : UpdateEnv) (tgt : String) :
    OppSys × Option UpdErr :=
  if env.dockerUpdateOk tgt = false then (s, some UpdErr.updateErr)
  else
    let s1 : OppSys :=
      { s with version := some tgt, instVersion := some tgt,
               image := some env.updaterImage }
    if env.running then
      match env.startOutcome tgt with
      | StartOutcome.ok => ({ s1 with errorState := false }, none)
      | StartOutcome.runFail => (s1, some UpdErr.oppErr)
      | StartOutcome.crash => ({ s1 with errorState := true }, some UpdErr.crashErr)
    else (s1, none)

/-- `OpenPeerPowerCore.update(version)` with the target version already
resolved (`version or self.sys_openpeerpower.latest_version`); the `Job`
conditions and the process lock are handled by the decorators outside this
body.  Rollback is captured before anything runs; the no-op check compares
against `instance.version`; a suppressed `_update` failure leads to a
rollback `_update` only when `error_state` is now set and a rollback
version exists (a failure of the rollback itself propagates, its success swallows
the original failure), and otherwise to `OpenPeerPowerUpdateError`. -/
def update (s : OppSys) (env : UpdateEnv) (version : String) : UpdateCall :=
  let rollback : Option String := if s.errorState then none else s.version
  if env.imageExists = true ∧ s.instVersion = some version then ⟨s, none, []⟩
  else
    let r1 := updInner s env version
    match r1.snd with
    | none => ⟨r1.fst, none, [version]⟩
    | some _ =>
      match rollback with
      | some rb =>
        if r1.fst.errorState then
          let r2 := updInner r1.fst env rb
          ⟨r2.fst, r2.snd, [version, rb]⟩
        else ⟨r1.fst, some UpdErr.updateErr, [version]⟩
      | none => ⟨r1.fst, some UpdErr.updateErr, [version]⟩

/-! ## Startup wait (`OpenPeerPowerCore._block_till_run`)

The wait loop sleeps five seconds per iteration and then observes, in
order: the container running state, the API readiness probe, the database
migration marker file and the pip installation marker file; the timeout
check compares the elapsed monotonic time against `wait_boot` and is
disabled entirely for versions from 0.112.0 on (early-stage UI). -/

/-- An `AwesomeVersion` as `_block_till_run` distinguishes them: the
`landingpage` tag, a plain numeric version, or a string whose comparison
with `0.112.0` raises `AwesomeVersionException` (suppressed, leaving the
timeout enabled). -/
inductive OppVersion where
  | landing
  | numeric (major minor patchN : Nat)
  | odd (tag : String)
deriving DecidableEq

/-- `version >= AwesomeVersion("0.112.0")`, false when the comparison is
unavailable (exception suppressed). -/
def versionGE112 : OppVersion → Bool
  | OppVersion.numeric a b _ => decide (0 < a) || (decide (a = 0) && decide (112 ≤ b))
  | _ => false

/-- Observations of one iteration: container running, API answering,
migration marker present, pip marker present. -/
structure Obs where
  running : Bool
  apiUp : Bool
  migration : Bool
  pip : Bool
deriving DecidableEq

/-- How a `_block_till_run` call ends: API detected (`_error_state :=
False`, normal return); container crash observed (break, `_error_state :=
True`, `OpenPeerPowerCrashError`); timeout expired (same raise); the
landingpage skip; or the observation trace ran out with the loop still
waiting. -/
inductive BtrOutcome where
  | ready
  | crashed
  | timedOut
  | skipped
  | pending
deriving DecidableEq

/-- The wait loop over a finite trace of observations.  `now` is the
monotonic clock at the current iteration (each iteration is 5 seconds after
the previous one), `startT` the reference instant of the timeout window,
`migProg`/`pipProg` the migration/pip in-progress flags.  A migration or
pip marker defers everything after it to the next iteration (`continue`);
when a marker disappears the window restarts at the current instant. -/
def btrLoop (waitBoot : Nat) (timeoutOn : Bool) :
    List Obs → Nat → Nat → Bool → Bool → BtrOutcome
  | [], _, _, _, _ => BtrOutcome.pending
  | o :: rest, now, startT, migProg, pipProg =>
    if o.running = false then BtrOutcome.crashed
    else if o.apiUp then BtrOutcome.ready
    else if o.migration then
      btrLoop waitBoot timeoutOn rest (now + 5) startT true pipProg
    else if o.pip then
      btrLoop waitBoot timeoutOn rest (now + 5)
        (if migProg then now else startT) false true
    else if timeoutOn = true ∧
        waitBoot <
          now - (if pipProg then now else if migProg then now else startT) then
      BtrOutcome.timedOut
    else
      btrLoop waitBoot timeoutOn rest (now + 5)
        (if pipProg then now else if migProg then now else startT) false false

/-- `OpenPeerPowerCore._block_till_run(version)`: skip for the landingpage,
otherwise run the wait loop with the timeout enabled exactly when the
version does not provide the early-stage UI (below 0.112.0 or not
comparable). -/
def blockTillRun (version : OppVersion) (waitBoot : Nat)
    (trace : List Obs) : BtrOutcome :=
  if version = OppVersion.landing then BtrOutcome.skipped
  else btrLoop waitBoot (!versionGE112 version) trace 5 0 false false

/-! ## Claim theorems -/

/-- C1: every snapshot/restore workflow that passes its initial
lock/type/password checks runs all capture/restore steps with `CoreState`
set to `FREEZE` and the global lock held, and on every exit path — normal
completion or an exception in any body step, covered here by quantifying
over all failure environments — the final `CoreState` is `RUNNING` and the
lock is released. -/
theorem snapshot_restore_freeze_bracket (st : SysState) (slug : String)
    (fa ff : Bool) (addons installed folders : List String)
    (snap : Snap) (pw : Bool) (env : RestoreEnv) (oppFlag : Bool)
    (raddons rfolders : List String)
    (hlock : st.lockHeld = false)
    (htype : snap.sysType = SnapType.full)
    (hpw : snap.protectedFlag = true → pw = true) :
    ((doSnapshotFull st slug fa ff).state.core = CoreState.running ∧
     (doSnapshotFull st slug fa ff).state.lockHeld = false ∧
     stepsFrozen (doSnapshotFull st slug fa ff).events = true) ∧
    ((doSnapshotPartial st slug addons installed folders fa ff).state.core =
        CoreState.running ∧
     (doSnapshotPartial st slug addons installed folders fa ff).state.lockHeld =
        false ∧
     stepsFrozen
        (doSnapshotPartial st slug addons installed folders fa ff).events =
        true) ∧
    ((doRestoreFull st snap pw env).state.core = CoreState.running ∧
     (doRestoreFull st snap pw env).state.lockHeld = false ∧
     stepsFrozen (doRestoreFull st snap pw env).events = true) ∧
    ((doRestorePartial st snap oppFlag raddons rfolders pw env).state.core =
        CoreState.running ∧
     (doRestorePartial st snap oppFlag raddons rfolders pw env).state.lockHeld =
        false ∧
     stepsFrozen
        (doRestorePartial st snap oppFlag raddons rfolders pw env).events =
        true) := by
  have hpc : ¬(snap.protectedFlag = true ∧ pw = false) := by
    rintro ⟨hp, hf⟩
    rw [hpw hp] at hf
    cases hf
  constructor
  · unfold doSnapshotFull
    rw [hlock]
    simpa using snapBody_bracket st slug SnapType.full _
  constructor
  · unfold doSnapshotPartial
    rw [hlock]
    simpa using snapBody_bracket st slug SnapType.part _
  constructor
  · unfold doRestoreFull
    rw [hlock, htype]
    simpa [hpc] using restoreBody_bracket st (fullRestoreSteps snap env)
  · unfold doRestorePartial
    rw [hlock]
    simpa [hpc] using
      restoreBody_bracket st (partRestoreSteps rfolders raddons oppFlag env)

/-- Witness for C1 at a concrete state, snapshot and failure environment
(the folder capture of the full snapshot raises). -/
theorem snapshot_restore_freeze_bracket_witness :
    (doSnapshotFull ⟨CoreState.running, false, []⟩ "s1" false true).state.core =
      CoreState.running ∧
    (doSnapshotFull ⟨CoreState.running, false, []⟩ "s1" false true).state.lockHeld =
      false ∧
    stepsFrozen
      (doSnapshotFull ⟨CoreState.running, false, []⟩ "s1" false true).events =
      true :=
  (snapshot_restore_freeze_bracket ⟨CoreState.running, false, []⟩ "s1"
    false true [] [] [] ⟨"s2", SnapType.full, false, []⟩ true
    ⟨false, false, false, false, false, false, false, false, false, false,
      [], true, true⟩ false [] []
    rfl rfl (fun _ => rfl)).1

/-- C4: `do_restore_full` fails (returns `False`) before any destructive
action — with the initial state unchanged (no `CoreState` change, lock not
acquired) and an empty step trace (nothing stopped, nothing written) —
whenever the snapshot is not of full type, or is protected and the supplied
password does not match. -/
theorem restore_full_guards_before_side_effects (st : SysState) (snap : Snap)
    (pw : Bool) (env : RestoreEnv)
    (hlock : st.lockHeld = false)
    (hbad : snap.sysType ≠ SnapType.full ∨
      (snap.protectedFlag = true ∧ pw = false)) :
    doRestoreFull st snap pw env = ⟨st, false, []⟩ := by
  by_cases ht : snap.sysType = SnapType.full
  · rcases hbad with h1 | h2
    · exact absurd ht h1
    · simp [doRestoreFull, hlock, ht, h2]
  · simp [doRestoreFull, hlock, ht]

/-- Witness for C4: restoring a protected snapshot of full type with a
wrong password is rejected with no side effects. -/
theorem restore_full_guards_before_side_effects_witness :
    doRestoreFull ⟨CoreState.running, false, [("old", SnapType.full)]⟩
      ⟨"s3", SnapType.full, true, ["a1"]⟩ false
      ⟨false, false, false, false, false, false, false, false, false, false,
        ["a1"], true, true⟩ =
    ⟨⟨CoreState.running, false, [("old", SnapType.full)]⟩, false, []⟩ :=
  restore_full_guards_before_side_effects _ _ _ _ rfl (Or.inr ⟨rfl, rfl⟩)

/-- C5: a snapshot is registered in the catalog only after its payload
capture completes without exception: a failed run of `do_snapshot_full` or
`do_snapshot_partial` returns `None` and leaves the catalog unchanged; a
successful run returns the snapshot and adds exactly one entry keyed by its
slug (all other keys unchanged; one entry longer when the slug is fresh). -/
theorem snapshot_catalog_registration (st : SysState) (slug : String)
    (fa ff : Bool) (addons installed folders : List String)
    (hlock : st.lockHeld = false) :
    (((doSnapshotFull st slug fa ff).result = none →
        (doSnapshotFull st slug fa ff).state.catalog = st.catalog) ∧
     (∀ s, (doSnapshotFull st slug fa ff).result = some s →
        s = slug ∧
        alistFind (doSnapshotFull st slug fa ff).state.catalog slug =
          some SnapType.full ∧
        (∀ t, t ≠ slug →
          alistFind (doSnapshotFull st slug fa ff).state.catalog t =
            alistFind st.catalog t) ∧
        (alistFind st.catalog slug = none →
          (doSnapshotFull st slug fa ff).state.catalog.length =
            st.catalog.length + 1))) ∧
    (((doSnapshotPartial st slug addons installed folders fa ff).result =
          none →
        (doSnapshotPartial st slug addons installed folders fa ff).state.catalog =
          st.catalog) ∧
     (∀ s,
        (doSnapshotPartial st slug addons installed folders fa ff).result =
          some s →
        s = slug ∧
        alistFind
            (doSnapshotPartial st slug addons installed folders fa ff).state.catalog
            slug = some SnapType.part ∧
        (∀ t, t ≠ slug →
          alistFind
              (doSnapshotPartial st slug addons installed folders fa ff).state.catalog
              t = alistFind st.catalog t) ∧
        (alistFind st.catalog slug = none →
          (doSnapshotPartial st slug addons installed folders fa ff).state.catalog.length =
            st.catalog.length + 1))) := by
  constructor
  · unfold doSnapshotFull
    rw [hlock]
    simpa using snapBody_catalog st slug SnapType.full _
  · unfold doSnapshotPartial
    rw [hlock]
    simpa using snapBody_catalog st slug SnapType.part _

/-- Witness for C5: a failing full snapshot leaves the catalog unchanged,
and a successful partial snapshot registers exactly its own slug. -/
theorem snapshot_catalog_registration_witness :
    (doSnapshotFull ⟨CoreState.running, false, [("old", SnapType.full)]⟩
        "new1" true false).state.catalog = [("old", SnapType.full)] ∧
    alistFind
      (doSnapshotPartial ⟨CoreState.running, false, [("old", SnapType.full)]⟩
          "new2" ["a1"] ["a1"] [] false false).state.catalog "new2" =
      some SnapType.part :=
  ⟨(snapshot_catalog_registration ⟨CoreState.running, false,
      [("old", SnapType.full)]⟩ "new1" true false ["a1"] ["a1"] [] rfl).1.1
      (by decide),
   ((snapshot_catalog_registration ⟨CoreState.running, false,
      [("old", SnapType.full)]⟩ "new2" false false ["a1"] ["a1"] [] rfl).2.2
      "new2" (by decide)).2.1⟩

/-- C6 counterexample: the "in progress" rejection is not a distinct typed
error.  A `do_snapshot_full` call made while the lock is held returns
`None` — exactly the same value a lock-free call returns when its capture
body raises — so the caller receives no typed "in progress" error, merely
the generic failure result. -/
theorem lock_contention_result_untyped :
    (doSnapshotFull ⟨CoreState.running, true, []⟩ "s1" false false).result =
      none ∧
    (doSnapshotFull ⟨CoreState.running, false, []⟩ "s1" true false).result =
      none := by
  decide

/-- C6 (amended): a call to any of the four workflows while the global
lock is held fails fast with the failure result (`None` for snapshots,
`False` for restores) after logging, performing no capture or restore work:
the state — `CoreState`, lock, catalog — is returned untouched and the step
trace is empty. -/
theorem lock_contention_fails_fast (st : SysState) (slug : String)
    (fa ff : Bool) (addons installed folders : List String)
    (snap : Snap) (pw : Bool) (env : RestoreEnv) (oppFlag : Bool)
    (raddons rfolders : List String)
    (h : st.lockHeld = true) :
    doSnapshotFull st slug fa ff = ⟨st, none, []⟩ ∧
    doSnapshotPartial st slug addons installed folders fa ff = ⟨st, none, []⟩ ∧
    doRestoreFull st snap pw env = ⟨st, false, []⟩ ∧
    doRestorePartial st snap oppFlag raddons rfolders pw env =
      ⟨st, false, []⟩ := by
  refine ⟨?_, ?_, ?_, ?_⟩ <;>
    simp [doSnapshotFull, doSnapshotPartial, doRestoreFull, doRestorePartial, h]

/-- Witness for C6 (amended) during a running snapshot operation. -/
theorem lock_contention_fails_fast_witness :
    doSnapshotFull ⟨CoreState.freeze, true, [("n1", SnapType.full)]⟩ "n2"
      false false =
    ⟨⟨CoreState.freeze, true, [("n1", SnapType.full)]⟩, none, []⟩ :=
  (lock_contention_fails_fast ⟨CoreState.freeze, true, [("n1", SnapType.full)]⟩
    "n2" false false [] [] [] ⟨"n1", SnapType.full, false, []⟩ true
    ⟨false, false, false, false, false, false, false, false, false, false,
      [], true, true⟩ false [] [] rfl).1

/-- C3 counterexample: a `do_restore_full` run in an environment where the
API is unreachable (`apiUp = false`) completes successfully with zero API
readiness checks and zero restarts in its trace — the claimed
verify-and-restart repair step does not exist in this workflow. -/
theorem restore_full_no_api_repair :
    (doRestoreFull ⟨CoreState.running, false, []⟩
        ⟨"nightly", SnapType.full, false, ["a1"]⟩ true
        ⟨false, false, false, false, false, false, false, false, false, false,
          ["a1", "a2"], true, false⟩).ok = true ∧
    restartCount
      (doRestoreFull ⟨CoreState.running, false, []⟩
          ⟨"nightly", SnapType.full, false, ["a1"]⟩ true
          ⟨false, false, false, false, false, false, false, false, false, false,
            ["a1", "a2"], true, false⟩).events = 0 ∧
    checkApiCount
      (doRestoreFull ⟨CoreState.running, false, []⟩
          ⟨"nightly", SnapType.full, false, ["a1"]⟩ true
          ⟨false, false, false, false, false, false, false, false, false, false,
            ["a1", "a2"], true, false⟩).events = 0 := by
  decide

theorem partRestoreSteps_nofail (folders addons : List String)
    (oppFlag : Bool) (env : RestoreEnv)
    (h1 : env.failRestoreDocker = false) (h2 : env.failStop = false)
    (h3 : env.failRestoreOpp = false) (h4 : env.failRestoreFolders = false)
    (h5 : env.failRestoreRepos = false) (h6 : env.failRestoreAddons = false)
    (h7 : env.failOppUpdate = false) (h8 : env.failOppStart = false)
    (h9 : env.failRestart = false) :
    ∀ s ∈ partRestoreSteps folders addons oppFlag env, s.snd = false := by
  intro s hs
  unfold partRestoreSteps at hs
  simp only [List.mem_append] at hs
  rcases hs with ((((((((hs | hs) | hs) | hs) | hs) | hs) | hs) | hs) | hs)
  · obtain rfl := List.mem_singleton.mp hs
    exact h1
  · have hs2 := mem_ite_nil hs
    rcases List.mem_cons.mp hs2 with rfl | hs3
    · exact h2
    · obtain rfl := List.mem_singleton.mp hs3
      exact h3
  · obtain rfl := List.mem_singleton.mp (mem_ite_nil_left hs)
    exact h4
  · obtain rfl := List.mem_singleton.mp (mem_ite_nil hs)
    rfl
  · rcases List.mem_cons.mp (mem_ite_nil_left hs) with rfl | hs3
    · exact h5
    · obtain rfl := List.mem_singleton.mp hs3
      exact h6
  · obtain rfl := List.mem_singleton.mp (mem_ite_nil hs)
    exact h7
  · obtain rfl := List.mem_singleton.mp (mem_ite_nil_left hs)
    exact h8
  · obtain rfl := List.mem_singleton.mp hs
    rfl
  · obtain rfl := List.mem_singleton.mp (mem_ite_nil_left hs)
    exact h9

/-- C3 (amended): the post-restore API verification and single repair
restart are performed by `do_restore_partial`, not by `do_restore_full`: a
partial restore whose component steps all succeed checks API readiness
exactly once after the awaited update task and the conditional start, and
issues exactly one restart when the API is unreachable (none when it is
reachable) before returning success.  `do_restore_full` returns success
directly after starting the primary application, with no API check (see
the counterexample). -/
theorem restore_partial_api_repair (st : SysState) (snap : Snap)
    (oppFlag : Bool) (addons folders : List String) (pw : Bool)
    (env : RestoreEnv)
    (hlock : st.lockHeld = false)
    (hpw : snap.protectedFlag = true → pw = true)
    (h1 : env.failRestoreDocker = false) (h2 : env.failStop = false)
    (h3 : env.failRestoreOpp = false) (h4 : env.failRestoreFolders = false)
    (h5 : env.failRestoreRepos = false) (h6 : env.failRestoreAddons = false)
    (h7 : env.failOppUpdate = false) (h8 : env.failOppStart = false)
    (h9 : env.failRestart = false) :
    (doRestorePartial st snap oppFlag addons folders pw env).ok = true ∧
    checkApiCount
      (doRestorePartial st snap oppFlag addons folders pw env).events = 1 ∧
    restartCount
      (doRestorePartial st snap oppFlag addons folders pw env).events =
      (if env.apiUp then 0 else 1) := by
  have hpc : ¬(snap.protectedFlag = true ∧ pw = false) := by
    rintro ⟨hp, hf⟩
    rw [hpw hp] at hf
    cases hf
  have hrun := runSteps_nofail CoreState.freeze true
    (partRestoreSteps folders addons oppFlag env)
    (partRestoreSteps_nofail folders addons oppFlag env
      h1 h2 h3 h4 h5 h6 h7 h8 h9)
  have hok : doRestorePartial st snap oppFlag addons folders pw env =
      restoreBody st (partRestoreSteps folders addons oppFlag env) := by
    simp [doRestorePartial, hlock, hpc]
  rw [hok]
  unfold restoreBody
  rw [hrun]
  refine ⟨rfl, ?_, ?_⟩
  · simp [checkApiCount, List.countP_append, List.countP_map, Function.comp,
      partRestoreSteps, countP_ite, List.countP_cons, List.countP_nil]
  · simp [restartCount, List.countP_append, List.countP_map, Function.comp,
      partRestoreSteps, countP_ite, List.countP_cons, List.countP_nil]

/-- Witness for C3 (amended): a concrete partial restore with the API
unreachable issues exactly one repair restart and succeeds. -/
theorem restore_partial_api_repair_witness :
    (doRestorePartial ⟨CoreState.running, false, []⟩
        ⟨"p1", SnapType.part, false, []⟩ true ["a1"] ["share"] true
        ⟨false, false, false, false, false, false, false, false, false, false,
          ["a1"], false, false⟩).ok = true ∧
    checkApiCount
      (doRestorePartial ⟨CoreState.running, false, []⟩
          ⟨"p1", SnapType.part, false, []⟩ true ["a1"] ["share"] true
          ⟨false, false, false, false, false, false, false, false, false, false,
            ["a1"], false, false⟩).events = 1 ∧
    restartCount
      (doRestorePartial ⟨CoreState.running, false, []⟩
          ⟨"p1", SnapType.part, false, []⟩ true ["a1"] ["share"] true
          ⟨false, false, false, false, false, false, false, false, false, false,
            ["a1"], false, false⟩).events = 1 :=
  restore_partial_api_repair ⟨CoreState.running, false, []⟩
    ⟨"p1", SnapType.part, false, []⟩ true ["a1"] ["share"] true
    ⟨false, false, false, false, false, false, false, false, false, false,
      ["a1"], false, false⟩
    rfl (fun h => by cases h) rfl rfl rfl rfl rfl rfl rfl rfl rfl

/-- C2 counterexample: a successful check does not reset the counter.
With the gates passing and the counter at 1 (one earlier miss), a
successful API probe leaves the counter at 1 — the claim requires it to be
reset to 0 immediately.  (Consequently two failures separated by a success
still escalate: the escalating pair need not be consecutive.) -/
theorem watchdog_success_keeps_counter :
    (watchdogOppApi true true false false true 1).fst = 1 ∧ (1 : Nat) ≠ 0 := by
  decide

/-- C2 (amended): for both application probes, the first failed check
increments the per-component counter to 1 with no recovery action; a
failed check with the counter already at 1 triggers the restart escalation
and resets the counter to 0 regardless of the escalation outcome; a
successful check performs no escalation but leaves the counter unchanged
(it is reset only by an escalation), so the two failures that trigger
escalation need not be consecutive. -/
theorem watchdog_application_probe_counter (c : Nat) (a : AddonW)
    (cc : List (String × Nat)) :
    watchdogOppApi true true false false false 0 = (1, false) ∧
    watchdogOppApi true true false false false 1 = (0, true) ∧
    watchdogOppApi true true false false true c = (c, false) ∧
    (a.watchdog = true → a.started = true → a.inProgress = false →
      a.appOk = true → watchdogAddonApp [a] cc = (cc, [])) ∧
    (a.watchdog = true → a.started = true → a.inProgress = false →
      a.appOk = false → cacheGet cc a.slug = 0 →
      watchdogAddonApp [a] cc = (cacheSet cc a.slug 1, [])) ∧
    (a.watchdog = true → a.started = true → a.inProgress = false →
      a.appOk = false → cacheGet cc a.slug = 1 →
      watchdogAddonApp [a] cc = (cacheSet cc a.slug 0, [a.slug])) := by
  refine ⟨by decide, by decide, ?_, ?_, ?_, ?_⟩
  · simp [watchdogOppApi]
  · intro hw hs hip hok
    simp [watchdogAddonApp, hw, hs, hip, hok]
  · intro hw hs hip hok h0
    simp [watchdogAddonApp, hw, hs, hip, hok, h0]
  · intro hw hs hip hok h1
    simp [watchdogAddonApp, hw, hs, hip, hok, h1]

/-- Witness for C2 (amended) on a concrete add-on and cache. -/
theorem watchdog_application_probe_counter_witness :
    watchdogOppApi true true false false true 7 = (7, false) ∧
    watchdogAddonApp [⟨"a1", true, true, false, false⟩] [("a1", 1)] =
      (cacheSet [("a1", 1)] "a1" 0, ["a1"]) :=
  ⟨(watchdog_application_probe_counter 7 ⟨"a1", true, true, false, false⟩
      [("a1", 1)]).2.2.1,
   (watchdog_application_probe_counter 7 ⟨"a1", true, true, false, false⟩
      [("a1", 1)]).2.2.2.2.2 rfl rfl rfl rfl rfl⟩

/-- C9: as soon as an add-on records its first consecutive probe failure
(counter 0 → 1), the whole watchdog tick returns: whatever add-ons follow
in the iteration order, the result of the tick is exactly the cache with that
one counter set to 1 — no later add-on is probed or escalated — and every
counter of every other slug is unchanged. -/
theorem watchdog_addon_first_failure_stops_tick (a : AddonW)
    (rest : List AddonW) (c : List (String × Nat))
    (hw : a.watchdog = true) (hs : a.started = true)
    (hip : a.inProgress = false) (hok : a.appOk = false)
    (h0 : cacheGet c a.slug = 0) :
    watchdogAddonApp (a :: rest) c = (cacheSet c a.slug 1, []) ∧
    ∀ s, s ≠ a.slug → cacheGet (cacheSet c a.slug 1) s = cacheGet c s := by
  constructor
  · simp [watchdogAddonApp, hw, hs, hip, hok, h0]
  · intro s hsne
    exact cacheGet_set_other c a.slug s 1 (fun he => hsne he.symm)

/-- Witness for C9: the first add-on fails its first probe; the second
add-on (also failing, counter 1) is never reached. -/
theorem watchdog_addon_first_failure_stops_tick_witness :
    watchdogAddonApp
      [⟨"a1", true, true, false, false⟩, ⟨"a2", true, true, false, false⟩]
      [("a2", 1)] =
    (cacheSet [("a2", 1)] "a1" 1, []) :=
  (watchdog_addon_first_failure_stops_tick ⟨"a1", true, true, false, false⟩
    [⟨"a2", true, true, false, false⟩] [("a2", 1)]
    rfl rfl rfl rfl rfl).1

/-- C7 counterexample: an update failure with the system previously
healthy does not always trigger a rollback.  Concretely, with a healthy
record at version 1.0 and `instance.update` failing at the Docker image
stage (which does not set `error_state`), the call raises the typed update
error directly and never attempts to reinstall 1.0. -/
theorem update_docker_failure_no_rollback :
    (update ⟨some "1.0", some "img", some "1.0", false⟩
        ⟨"img2", true, true, fun _ => false, fun _ => StartOutcome.ok⟩
        "2.0").result = some UpdErr.updateErr ∧
    "1.0" ∉ (update ⟨some "1.0", some "img", some "1.0", false⟩
        ⟨"img2", true, true, fun _ => false, fun _ => StartOutcome.ok⟩
        "2.0").attempts := by
  decide

/-- C7 (amended): rollback is attempted only when the failed update left
the system in error state — the newly started version crashed before
becoming ready — and the system was not in error state when the update was
invoked (so a rollback version was captured): then the previously-running
version is reinstalled, and if the image update of that rollback itself fails the
typed update error is raised to the caller of that call.  An update failure
that does not set the error state (a Docker image failure) raises the typed
update error with no rollback attempt. -/
theorem update_rollback_semantics (s : OppSys) (env : UpdateEnv)
    (v rb : String)
    (hhealthy : s.errorState = false)
    (hver : s.version = some rb)
    (hno : s.instVersion ≠ some v) :
    (env.dockerUpdateOk v = true → env.running = true →
      env.startOutcome v = StartOutcome.crash →
      (update s env v).attempts = [v, rb]) ∧
    (env.dockerUpdateOk v = false →
      update s env v = ⟨s, some UpdErr.updateErr, [v]⟩) ∧
    (env.dockerUpdateOk v = true → env.running = true →
      env.startOutcome v = StartOutcome.crash →
      env.dockerUpdateOk rb = false →
      (update s env v).result = some UpdErr.updateErr) := by
  have hcond : ¬(env.imageExists = true ∧ s.instVersion = some v) :=
    fun h => hno h.2
  refine ⟨?_, ?_, ?_⟩
  · intro hd hr hc
    simp [update, updInner, hcond, hhealthy, hver, hd, hr, hc]
  · intro hd
    simp [update, updInner, hcond, hhealthy, hver, hd]
  · intro hd hr hc hd2
    simp [update, updInner, hcond, hhealthy, hver, hd, hr, hc, hd2]

/-- Witness for C7 (amended): a crash of the new version triggers the
rollback reinstall of the old one; a Docker-stage failure raises the update
error without rollback. -/
theorem update_rollback_semantics_witness :
    (update ⟨some "1.0", some "img", some "1.0", false⟩
        ⟨"img2", true, true, fun _ => true, fun _ => StartOutcome.crash⟩
        "2.0").attempts = ["2.0", "1.0"] ∧
    update ⟨some "1.0", some "img", some "1.0", false⟩
        ⟨"img2", true, true, fun _ => false, fun _ => StartOutcome.ok⟩
        "2.0" =
      ⟨⟨some "1.0", some "img", some "1.0", false⟩, some UpdErr.updateErr,
        ["2.0"]⟩ :=
  ⟨(update_rollback_semantics ⟨some "1.0", some "img", some "1.0", false⟩
      ⟨"img2", true, true, fun _ => true, fun _ => StartOutcome.crash⟩
      "2.0" "1.0" rfl rfl (by decide)).1 rfl rfl rfl,
   (update_rollback_semantics ⟨some "1.0", some "img", some "1.0", false⟩
      ⟨"img2", true, true, fun _ => false, fun _ => StartOutcome.ok⟩
      "2.0" "1.0" rfl rfl (by decide)).2.1 rfl⟩

/-- C10: `update` is a no-op on an already-installed version: when the
container image exists and the requested version equals the version the
instance runs, the call returns immediately with the record untouched, no
`instance.update` attempt, no start/stop, and no error; and after a
successful update to `v` the installed version is `v`, so a second
identical call is exactly such a no-op. -/
theorem update_idempotent_on_installed (s : OppSys) (env : UpdateEnv)
    (v : String)
    (hex : env.imageExists = true)
    (hd : env.dockerUpdateOk v = true)
    (hs : env.startOutcome v = StartOutcome.ok) :
    (s.instVersion = some v → update s env v = ⟨s, none, []⟩) ∧
    (update s env v).state.instVersion = some v ∧
    (update s env v).result = none ∧
    update (update s env v).state env v =
      ⟨(update s env v).state, none, []⟩ := by
  have hmain : ∀ t : OppSys, t.instVersion = some v →
      update t env v = ⟨t, none, []⟩ := by
    intro t ht
    simp [update, hex, ht]
  have hinst : (update s env v).state.instVersion = some v ∧
      (update s env v).result = none := by
    by_cases hiv : s.instVersion = some v
    · rw [hmain s hiv]
      exact ⟨hiv, rfl⟩
    · have hcond : ¬(env.imageExists = true ∧ s.instVersion = some v) :=
        fun h => hiv h.2
      cases hr : env.running
      · simp [update, updInner, hcond, hd, hr]
      · simp [update, updInner, hcond, hd, hr, hs]
  exact ⟨hmain s, hinst.1, hinst.2, hmain _ hinst.1⟩

/-- Witness for C10: updating to the version already installed returns
immediately with no state change and no attempts. -/
theorem update_idempotent_on_installed_witness :
    update ⟨some "1.0", some "img", some "1.0", false⟩
        ⟨"img2", true, true, fun _ => true, fun _ => StartOutcome.ok⟩
        "1.0" =
      ⟨⟨some "1.0", some "img", some "1.0", false⟩, none, []⟩ :=
  (update_idempotent_on_installed ⟨some "1.0", some "img", some "1.0", false⟩
    ⟨"img2", true, true, fun _ => true, fun _ => StartOutcome.ok⟩
    "1.0" rfl rfl rfl).1 rfl

theorem btrLoop_no_timeout (wb : Nat) (tr : List Obs) :
    ∀ (now startT : Nat) (mp pp : Bool),
      btrLoop wb false tr now startT mp pp ≠ BtrOutcome.timedOut := by
  induction tr with
  | nil =>
    intro now startT mp pp
    simp [btrLoop]
  | cons o rest ih =>
    intro now startT mp pp
    unfold btrLoop
    cases h1 : o.running
    · simp [h1]
    · cases h2 : o.apiUp
      · cases h3 : o.migration
        · cases h4 : o.pip
          · simp [h1, h2, h3, h4, ih]
          · simp [h1, h2, h3, h4, ih]
        · simp [h1, h2, h3, ih]
      · simp [h1, h2]

theorem btrLoop_ready_requires_api (wb : Nat) (ton : Bool) (tr : List Obs) :
    ∀ (now startT : Nat) (mp pp : Bool),
      btrLoop wb ton tr now startT mp pp = BtrOutcome.ready →
      tr.any (fun o => o.apiUp) = true := by
  induction tr with
  | nil =>
    intro now startT mp pp h
    simp [btrLoop] at h
  | cons o rest ih =>
    intro now startT mp pp h
    unfold btrLoop at h
    by_cases h1 : o.running = false
    · rw [if_pos h1] at h
      cases h
    · rw [if_neg h1] at h
      by_cases h2 : o.apiUp = true
      · simp [List.any_cons, h2]
      · rw [if_neg h2] at h
        by_cases h3 : o.migration = true
        · rw [if_pos h3] at h
          simp [List.any_cons, ih _ _ _ _ h]
        · rw [if_neg h3] at h
          by_cases h4 : o.pip = true
          · rw [if_pos h4] at h
            simp [List.any_cons, ih _ _ _ _ h]
          · rw [if_neg h4] at h
            split at h <;> try split at h
            all_goals try split at h
            all_goals
              first
                | cases h
                | simp [List.any_cons, ih _ _ _ _ h]

theorem btrLoop_crashed_requires_crash (wb : Nat) (ton : Bool)
    (tr : List Obs) :
    ∀ (now startT : Nat) (mp pp : Bool),
      btrLoop wb ton tr now startT mp pp = BtrOutcome.crashed →
      tr.any (fun o => !o.running) = true := by
  induction tr with
  | nil =>
    intro now startT mp pp h
    simp [btrLoop] at h
  | cons o rest ih =>
    intro now startT mp pp h
    unfold btrLoop at h
    by_cases h1 : o.running = false
    · simp [List.any_cons, h1]
    · rw [if_neg h1] at h
      by_cases h2 : o.apiUp = true
      · rw [if_pos h2] at h
        cases h
      · rw [if_neg h2] at h
        by_cases h3 : o.migration = true
        · rw [if_pos h3] at h
          simp [List.any_cons, ih _ _ _ _ h]
        · rw [if_neg h3] at h
          by_cases h4 : o.pip = true
          · rw [if_pos h4] at h
            simp [List.any_cons, ih _ _ _ _ h]
          · rw [if_neg h4] at h
            split at h <;> try split at h
            all_goals try split at h
            all_goals
              first
                | cases h
                | simp [List.any_cons, ih _ _ _ _ h]

theorem btrLoop_quiet_timeout (wb : Nat) (tr : List Obs)
    (hq : ∀ o ∈ tr, o.running = true ∧ o.apiUp = false ∧
      o.migration = false ∧ o.pip = false) :
    ∀ now : Nat, (∃ k, k < tr.length ∧ wb < now + 5 * k) →
      btrLoop wb true tr now 0 false false = BtrOutcome.timedOut := by
  induction tr with
  | nil =>
    rintro now ⟨k, hk, _⟩
    exact absurd hk (Nat.not_lt_zero k)
  | cons o rest ih =>
    rintro now ⟨k, hk, hlt⟩
    obtain ⟨ho1, ho2, ho3, ho4⟩ := hq o (List.mem_cons_self o rest)
    unfold btrLoop
    rw [if_neg (by simp [ho1]), if_neg (by simp [ho2]),
      if_neg (by simp [ho3]), if_neg (by simp [ho4])]
    by_cases hnow : wb < now
    · rw [if_pos ⟨rfl, by simpa using hnow⟩]
    · rw [if_neg (by
        rintro ⟨_, hcon⟩
        simp at hcon
        exact hnow hcon)]
      have hk1 : k ≠ 0 := by
        rintro rfl
        simp at hlt
        exact hnow hlt
      refine ih (fun t ht => hq t (List.mem_cons_of_mem o ht)) (now + 5)
        ⟨k - 1, ?_, ?_⟩
      · have := List.length_cons o rest
        omega
      · omega

/-- C8: timeout policy of `_block_till_run`.  For versions at or above the
0.112.0 early-UI threshold the wait never times out — it ends only on an
observed API success or an observed container crash (or not at all on a
trace that shows neither).  For versions below the threshold (or not
comparable), on a run where the container stays up, the API never answers
and no migration or pip marker is ever observed, the loop times out once
the elapsed time exceeds `wait_boot` — within `wait_boot / 5 + 1`
iterations. -/
theorem block_till_run_timeout_policy (v : OppVersion) (wb : Nat)
    (tr : List Obs) :
    (versionGE112 v = true →
      blockTillRun v wb tr ≠ BtrOutcome.timedOut) ∧
    (blockTillRun v wb tr = BtrOutcome.ready →
      tr.any (fun o => o.apiUp) = true) ∧
    (blockTillRun v wb tr = BtrOutcome.crashed →
      tr.any (fun o => !o.running) = true) ∧
    (versionGE112 v = false → v ≠ OppVersion.landing →
      (∀ o ∈ tr, o.running = true ∧ o.apiUp = false ∧
        o.migration = false ∧ o.pip = false) →
      wb / 5 + 1 ≤ tr.length →
      blockTillRun v wb tr = BtrOutcome.timedOut) := by
  refine ⟨?_, ?_, ?_, ?_⟩
  · intro hge
    unfold blockTillRun
    split
    · simp
    · rw [hge]
      exact btrLoop_no_timeout wb tr 5 0 false false
  · intro h
    unfold blockTillRun at h
    split at h
    · cases h
    · exact btrLoop_ready_requires_api wb _ tr 5 0 false false h
  · intro h
    unfold blockTillRun at h
    split at h
    · cases h
    · exact btrLoop_crashed_requires_crash wb _ tr 5 0 false false h
  · intro hge hland hq hlen
    unfold blockTillRun
    rw [if_neg hland, hge]
    refine btrLoop_quiet_timeout wb tr hq 5 ⟨wb / 5, by omega, ?_⟩
    have hdm := Nat.div_add_mod wb 5
    have hm : wb % 5 < 5 := Nat.mod_lt wb (by omega)
    omega

/-- Witness for C8: a 2021.3.0 instance never times out; a 0.110.0
instance with a quiet trace of three five-second beats against a ten-second
`wait_boot` times out. -/
theorem block_till_run_timeout_policy_witness :
    blockTillRun (OppVersion.numeric 2021 3 0) 60
        [⟨true, false, false, false⟩] ≠ BtrOutcome.timedOut ∧
    blockTillRun (OppVersion.numeric 0 110 0) 10
        [⟨true, false, false, false⟩, ⟨true, false, false, false⟩,
          ⟨true, false, false, false⟩] = BtrOutcome.timedOut :=
  ⟨(block_till_run_timeout_policy (OppVersion.numeric 2021 3 0) 60
      [⟨true, false, false, false⟩]).1 (by decide),
   (block_till_run_timeout_policy (OppVersion.numeric 0 110 0) 10
      [⟨true, false, false, false⟩, ⟨true, false, false, false⟩,
        ⟨true, false, false, false⟩]).2.2.2 (by decide) (by decide)
      (by decide) (by decide)⟩

end Supervisor
